import Mathlib

/- Shallow embedding of the MindsetFit nutrition engine
   (src/nutrition_engine.py, with the user-facing layer in src/app.py).

   Modelling conventions:
   * Python floats are modelled as exact rationals, Python ints as integers.
   * Python round() is round-half-to-even, modelled by pyRound.
   * str.lower() / str.strip() / the substring operator are modelled by
     pyLower / pyStrip / pyContains over the character list of a string.
     Char.toLower only lowers ASCII letters; every cased character the
     engine actually compares is ASCII, so this agrees with Python here.
   * pandas DataFrames are lists of records; pd.to_numeric coercion that
     yields NaN is modelled by an Option that is none. -/

/- Python round(x): round half to even, applied to an exact rational. -/
def pyRound (q : ℚ) : ℤ :=
  let f := ⌊q⌋
  let r := q - (f : ℚ)
  if r < 1/2 then f
  else if 1/2 < r then f + 1
  else if f % 2 = 0 then f else f + 1

/- Python str.lower(), ASCII case mapping. -/
def pyLower (s : String) : String := ⟨s.data.map Char.toLower⟩

/- Python str.strip(): drop whitespace from both ends. -/
def pyStrip (s : String) : String :=
  ⟨((s.data.dropWhile Char.isWhitespace).reverse.dropWhile Char.isWhitespace).reverse⟩

/- Helper for pyContains: does the first list start the second? -/
def comecaCom : List Char → List Char → Bool
  | [], _ => true
  | _ :: _, [] => false
  | a :: as, b :: bs => a == b && comecaCom as bs

def contemLista (sub : List Char) : List Char → Bool
  | [] => sub.isEmpty
  | b :: bs => comecaCom sub (b :: bs) || contemLista sub bs

/- Python substring test: pyContains sub s models the expression sub in s. -/
def pyContains (sub s : String) : Bool := contemLista sub.data s.data

/- Dataclass of the patient profile (Python class name uses accented
   characters that are not valid Lean identifier characters). -/
structure Informacoes_do_Paciente where
  nome : String
  idade : ℤ
  sexo : String
  peso : ℚ
  altura : ℚ
  nivel_atividade : String
  objetivo : String
  gordura_corporal : Option ℚ := none

/- One catalog record, keyed by the mapped columns.  The four numeric
   fields are Options: none models a NaN left by
   pd.to_numeric(..., errors="coerce") for a non-numeric cell. -/
structure RawRow where
  nome : String
  kcal : Option ℚ
  prot : Option ℚ
  carb : Option ℚ
  gord : Option ℚ

/- The loaded TACO table handed to NutritionEngine.__init__: its column
   names plus its records. -/
structure RawCatalog where
  columns : List String
  data : List RawRow

/- A record that survived dropna: every numeric field is present. -/
structure Row where
  nome : String
  kcal : ℚ
  prot : ℚ
  carb : ℚ
  gord : ℚ

/- Column auto-detection from _mapear_colunas (keyword lists copied from
   the source). -/
def nomes_de_coluna_nome : List String :=
  ["alimento", "descr", "descricao", "descrição", "nome"]

def acha_nome (cols : List String) : Option String :=
  cols.find? fun c => nomes_de_coluna_nome.any fun s => pyContains s c

def acha_kcal (cols : List String) : Option String :=
  cols.find? fun c => pyContains "kcal" c || pyContains "energia" c

def acha_prot (cols : List String) : Option String :=
  cols.find? fun c => pyContains "prot" c

def acha_carb (cols : List String) : Option String :=
  cols.find? fun c => pyContains "carb" c || pyContains "cho" c

def acha_gord (cols : List String) : Option String :=
  cols.find? fun c => pyContains "gord" c || pyContains "lip" c

structure ColunasMapeadas where
  col_nome : String
  col_kcal : String
  col_prot : String
  col_carb : String
  col_gord : String

/- NutritionEngine._mapear_colunas.  On an empty column list Python
   raises IndexError while evaluating the default cols[0] of the name
   lookup; otherwise the name column falls back to the first column and
   a ValueError is raised exactly when one of the kcal / protein / carb /
   fat columns cannot be found. -/
def mapear_colunas (cols : List String) : Except String ColunasMapeadas :=
  match cols with
  | [] => Except.error "IndexError: list index out of range"
  | c0 :: _ =>
    match acha_kcal cols, acha_prot cols, acha_carb cols, acha_gord cols with
    | some k, some p, some cb, some g =>
        Except.ok ⟨(acha_nome cols).getD c0, k, p, cb, g⟩
    | _, _, _, _ =>
        Except.error "Não foi possível mapear as colunas de kcal/proteína/carbo/gordura na TACO."

/- df.dropna(subset=[kcal, prot, carb, gord]). -/
def dropna : List RawRow → List Row :=
  List.filterMap fun r =>
    match r.kcal, r.prot, r.carb, r.gord with
    | some k, some p, some c, some g => some ⟨r.nome, k, p, c, g⟩
    | _, _, _, _ => none

/- Membership predicates of the three dominant-macro source lists built
   by _preparar_listas_alimentos (source lines 104-120). -/
def FonteProteina (r : Row) : Prop := 8 ≤ r.prot ∧ r.carb < r.prot ∧ r.gord ≤ r.prot

def FonteCarbo (r : Row) : Prop := 8 ≤ r.carb ∧ r.prot < r.carb ∧ r.gord ≤ r.carb

def FonteGordura (r : Row) : Prop := 5 ≤ r.gord ∧ r.prot < r.gord ∧ r.carb < r.gord

instance (r : Row) : Decidable (FonteProteina r) := by unfold FonteProteina; infer_instance

instance (r : Row) : Decidable (FonteCarbo r) := by unfold FonteCarbo; infer_instance

instance (r : Row) : Decidable (FonteGordura r) := by unfold FonteGordura; infer_instance

/- sort_values(col, ascending=False): a deterministic descending sort by
   the given key (the exact order among ties is irrelevant to every
   property below). -/
def insere_desc (key : Row → ℚ) (r : Row) : List Row → List Row
  | [] => [r]
  | x :: xs => if key x < key r then r :: x :: xs else x :: insere_desc key r xs

def ordena_desc (key : Row → ℚ) : List Row → List Row
  | [] => []
  | r :: rs => insere_desc key r (ordena_desc key rs)

/- The state NutritionEngine.__init__ derives from the table: the three
   dominant-macro source lists. -/
structure NutritionEngine where
  fontes_proteina : List Row
  fontes_carbo : List Row
  fontes_gordura : List Row

/- NutritionEngine._preparar_listas_alimentos. -/
def preparar_listas_alimentos (data : List RawRow) : NutritionEngine :=
  let df := dropna data
  { fontes_proteina := ordena_desc Row.prot (df.filter fun r => decide (FonteProteina r))
    fontes_carbo := ordena_desc Row.carb (df.filter fun r => decide (FonteCarbo r))
    fontes_gordura := ordena_desc Row.gord (df.filter fun r => decide (FonteGordura r)) }

/- NutritionEngine.__init__: normalize column names, map the columns
   (possibly raising), then build the source lists.  Note there is no
   emptiness check on the rows. -/
def colunas_normalizadas (cat : RawCatalog) : List String :=
  cat.columns.map fun c => pyLower (pyStrip c)

def nutrition_engine_init (cat : RawCatalog) : Except String NutritionEngine :=
  match mapear_colunas (colunas_normalizadas cat) with
  | Except.error e => Except.error e
  | Except.ok _ => Except.ok (preparar_listas_alimentos cat.data)

/- True exactly when __init__ raises nothing. -/
def inicializa_sem_erro (cat : RawCatalog) : Bool :=
  match nutrition_engine_init cat with
  | Except.ok _ => true
  | Except.error _ => false

/- The four TMB equations. -/
def tmb_mifflin (p : Informacoes_do_Paciente) : ℚ :=
  if pyLower p.sexo = "masculino" then
    10 * p.peso + 6.25 * p.altura - 5 * (p.idade : ℚ) + 5
  else
    10 * p.peso + 6.25 * p.altura - 5 * (p.idade : ℚ) - 161

def tmb_harris_benedict (p : Informacoes_do_Paciente) : ℚ :=
  if pyLower p.sexo = "masculino" then
    88.362 + 13.397 * p.peso + 4.799 * p.altura - 5.677 * (p.idade : ℚ)
  else
    447.593 + 9.247 * p.peso + 3.098 * p.altura - 4.330 * (p.idade : ℚ)

def tmb_owen (p : Informacoes_do_Paciente) : ℚ :=
  if pyLower p.sexo = "masculino" then 879 + 10.2 * p.peso
  else 795 + 7.18 * p.peso

def tmb_cunningham (p : Informacoes_do_Paciente) : ℚ :=
  match p.gordura_corporal with
  | none => tmb_mifflin p
  | some gc => 500 + 22 * (p.peso * (1 - gc / 100))

def calcular_tmb_equacao (p : Informacoes_do_Paciente) (equacao : String) : ℚ :=
  let e := pyLower equacao
  if e = "mifflin" then tmb_mifflin p
  else if e = "harris-benedict" then tmb_harris_benedict p
  else if e = "owen" then tmb_owen p
  else if e = "cunningham" then tmb_cunningham p
  else tmb_mifflin p

def calcular_tmb_todas_equacoes (p : Informacoes_do_Paciente) : List (String × ℤ) :=
  [("Mifflin-St Jeor", pyRound (tmb_mifflin p)),
   ("Harris-Benedict", pyRound (tmb_harris_benedict p)),
   ("Owen", pyRound (tmb_owen p)),
   ("Cunningham", pyRound (tmb_cunningham p))]

/- fator_atividade: dict lookup with default 1.2. -/
def fator_atividade (nivel : String) : ℚ :=
  let n := pyLower nivel
  if n = "sedentário" then 1.2
  else if n = "sedentario" then 1.2
  else if n = "levemente ativo" then 1.375
  else if n = "moderadamente ativo" then 1.55
  else if n = "muito ativo" then 1.725
  else if n = "extremamente ativo" then 1.9
  else 1.2

/- Keyword tests of ajustar_por_objetivo (Python substring checks on the
   lowercased goal label). -/
def eh_objetivo_emagrecimento (objetivo : String) : Bool :=
  pyContains "emagrec" (pyLower objetivo) || pyContains "perda" (pyLower objetivo)

def eh_objetivo_ganho (objetivo : String) : Bool :=
  pyContains "ganho" (pyLower objetivo) || pyContains "hipertrofia" (pyLower objetivo)

def ajustar_por_objetivo (tdee : ℚ) (objetivo : String) : ℚ :=
  if eh_objetivo_emagrecimento objetivo then tdee * 0.8
  else if eh_objetivo_ganho objetivo then tdee * 1.1
  else tdee

/- gerar_macros: 30/45/25 split, protein and carbs at 4 kcal/g, fat at
   9 kcal/g, every output rounded. -/
structure Macros where
  kcal : ℤ
  proteina_g : ℤ
  carbo_g : ℤ
  gordura_g : ℤ

def gerar_macros (kcal_dia : ℚ) : Macros :=
  let prot_kcal := kcal_dia * 0.30
  let carb_kcal := kcal_dia * 0.45
  let gord_kcal := kcal_dia * 0.25
  { kcal := pyRound kcal_dia
    proteina_g := pyRound (prot_kcal / 4)
    carbo_g := pyRound (carb_kcal / 4)
    gordura_g := pyRound (gord_kcal / 9) }

/- distribuir_por_refeicao and its fixed six-slot scheme. -/
structure Refeicao where
  refeicao : String
  fracao : ℚ
  kcal : ℤ
  proteina_g : ℤ
  carbo_g : ℤ
  gordura_g : ℤ

def esquema : List (String × ℚ) :=
  [("Café da manhã", 0.20), ("Lanche da manhã", 0.10), ("Almoço", 0.30),
   ("Lanche da tarde", 0.10), ("Jantar", 0.20), ("Ceia", 0.10)]

def distribuir_por_refeicao (macros : Macros) : List Refeicao :=
  esquema.map fun nf =>
    { refeicao := nf.1
      fracao := nf.2
      kcal := pyRound ((macros.kcal : ℚ) * nf.2)
      proteina_g := pyRound ((macros.proteina_g : ℚ) * nf.2)
      carbo_g := pyRound ((macros.carbo_g : ℚ) * nf.2)
      gordura_g := pyRound ((macros.gordura_g : ℚ) * nf.2) }

/- _combo_para_refeicao.  The source returns a markdown string; the
   embedding keeps its decision payload: either one of the two fallback
   texts, or the list of (grams, food name) lines it prints. -/
inductive ComboResult where
  | generica : ComboResult
  | manual : ComboResult
  | combo : List (ℤ × String) → ComboResult

def combo_linhas : ComboResult → List (ℤ × String)
  | ComboResult.combo l => l
  | _ => []

/- limitar_gramas from the source: 0 for non-positive inputs, otherwise
   clamp into the 20 g - 200 g band. -/
def limitar_gramas (g : ℤ) : ℤ :=
  if g ≤ 0 then 0 else max 20 (min g 200)

/- A printed line exists only when its (already limited) grams are
   positive. -/
def linha_se_positiva (gr : ℤ) (nome : String) : List (ℤ × String) :=
  if 0 < gr then [(gr, nome)] else []

def combo_para_refeicao (e : NutritionEngine) (alvo_prot alvo_carb alvo_gord : ℚ) :
    ComboResult :=
  match e.fontes_proteina, e.fontes_carbo with
  | [], _ => ComboResult.generica
  | _ :: _, [] => ComboResult.generica
  | prot_row :: _, carb_row :: _ =>
    let linhas :=
      linha_se_positiva
        (limitar_gramas
          (if 0 < prot_row.prot then pyRound ((alvo_prot * 0.7) / (prot_row.prot / 100)) else 0))
        prot_row.nome ++
      linha_se_positiva
        (limitar_gramas
          (if 0 < carb_row.carb then pyRound ((alvo_carb * 0.7) / (carb_row.carb / 100)) else 0))
        carb_row.nome ++
      (match e.fontes_gordura.head? with
       | some gord_row =>
          linha_se_positiva
            (limitar_gramas
              (if 0 < gord_row.gord then pyRound ((alvo_gord * 0.7) / (gord_row.gord / 100)) else 0))
            gord_row.nome
       | none => [])
    if linhas.isEmpty then ComboResult.manual else ComboResult.combo linhas

/- sugerir_receitas: the per-meal dict of suggestion texts; the embedding
   keeps, per meal, the meal name, the foco phrase and the combo payload
   interpolated into the text. -/
def foco_do_objetivo (objetivo : String) : String :=
  let obj := pyLower objetivo
  if pyContains "emagrec" obj then
    "redução de densidade calórica, alto teor de fibras e proteínas."
  else if pyContains "ganho" obj then
    "maior densidade calórica com ênfase em proteínas e carboidratos complexos."
  else
    "equilíbrio entre proteínas, carboidratos complexos e gorduras boas."

def sugerir_receitas (e : NutritionEngine) (objetivo : String) (refeicoes : List Refeicao) :
    List (String × String × ComboResult) :=
  refeicoes.map fun ref =>
    (ref.refeicao, foco_do_objetivo objetivo,
      combo_para_refeicao e (ref.proteina_g : ℚ) (ref.carbo_g : ℚ) (ref.gordura_g : ℚ))

/- The plan dict returned by gerar_plano. -/
structure Plano where
  tmb_principal : ℤ
  tmb_equacoes : List (String × ℤ)
  tdee : ℤ
  kcal_objetivo : ℤ
  macros : Macros
  refeicoes : List Refeicao
  receitas : List (String × String × ComboResult)

/- NutritionEngine.gerar_plano.  It performs no validation of the
   profile: it is a total function of its inputs. -/
def gerar_plano (e : NutritionEngine) (paciente : Informacoes_do_Paciente)
    (equacao_principal : String) : Plano :=
  let tmb_principal := calcular_tmb_equacao paciente equacao_principal
  let tmb_equacoes := calcular_tmb_todas_equacoes paciente
  let fator := fator_atividade paciente.nivel_atividade
  let tdee := tmb_principal * fator
  let kcal_ajustada := ajustar_por_objetivo tdee paciente.objetivo
  let macros := gerar_macros kcal_ajustada
  let refeicoes := distribuir_por_refeicao macros
  let receitas := sugerir_receitas e paciente.objetivo refeicoes
  { tmb_principal := pyRound tmb_principal
    tmb_equacoes := tmb_equacoes
    tdee := pyRound tdee
    kcal_objetivo := pyRound kcal_ajustada
    macros := macros
    refeicoes := refeicoes
    receitas := receitas }

/- ==================== Restriction Filter (spec §4.2) ==================== -/

/- Modelled from the spec: the Restriction Filter component of §4.2 is not
   present in src/ (the three files under src/ contain no dietary-pattern
   or clinical-restriction filtering); the dietary pattern, the clinical
   flags, the food compatibility tags and the filter with its fallback are
   taken from the spec's own words. -/
inductive PadraoAlimentar where
  | onivoro : PadraoAlimentar
  | vegetariano : PadraoAlimentar
  | vegano : PadraoAlimentar

/- Modelled from the spec: the clinical restriction flags of the profile
   (§3, PatientProfile). -/
structure RestricoesClinicas where
  celiaco : Bool
  diabetico : Bool
  hipertenso : Bool
  intolerante_lactose : Bool
  alergico_ovo : Bool
  alergico_oleaginosas : Bool

/- Modelled from the spec: the boolean compatibility tags of a FoodItem
   (§3). -/
structure TagsAlimento where
  vegetariano_ok : Bool
  vegano_ok : Bool
  sem_gluten : Bool
  ok_diabetes : Bool
  baixo_sodio : Bool
  contem_lactose : Bool
  contem_ovo : Bool
  contem_oleaginosas : Bool

structure AlimentoMarcado where
  nome : String
  tags : TagsAlimento

/- Modelled from the spec: the intersection (logical AND) of the active
   restriction predicates of §4.2: dietary pattern, then celiac/diabetic/
   hypertensive requirements, then the three allergy exclusions; a
   predicate is skipped when its flag is false. -/
def passa_restricoes (padrao : PadraoAlimentar) (rest : RestricoesClinicas)
    (a : AlimentoMarcado) : Bool :=
  (match padrao with
   | PadraoAlimentar.vegano => a.tags.vegano_ok
   | PadraoAlimentar.vegetariano => a.tags.vegetariano_ok
   | PadraoAlimentar.onivoro => true)
  && (!rest.celiaco || a.tags.sem_gluten)
  && (!rest.diabetico || a.tags.ok_diabetes)
  && (!rest.hipertenso || a.tags.baixo_sodio)
  && (!rest.intolerante_lactose || !a.tags.contem_lactose)
  && (!rest.alergico_ovo || !a.tags.contem_ovo)
  && (!rest.alergico_oleaginosas || !a.tags.contem_oleaginosas)

/- Modelled from the spec: the filter stage with its fallback invariant —
   if the intersection of all active filters is empty, return the full,
   unfiltered catalog rather than an empty result. -/
def filtro_restricoes (padrao : PadraoAlimentar) (rest : RestricoesClinicas)
    (catalogo : List AlimentoMarcado) : List AlimentoMarcado :=
  let filtrado := catalogo.filter (passa_restricoes padrao rest)
  if filtrado.isEmpty then catalogo else filtrado

/- ==================== Concrete example values ==================== -/

/- The default profile of the input form in src/app.py. -/
def paciente_exemplo : Informacoes_do_Paciente :=
  { nome := "Paciente Teste", idade := 30, sexo := "masculino", peso := 80,
    altura := 178, nivel_atividade := "Sedentário", objetivo := "Emagrecimento",
    gordura_corporal := none }

/- A profile the UI bounds would reject: negative weight and height,
   absurd age.  The dataclass itself accepts it. -/
def paciente_invalido : Informacoes_do_Paciente :=
  { nome := "Paciente Inválido", idade := 500, sexo := "masculino", peso := -50,
    altura := -10, nivel_atividade := "Sedentário", objetivo := "Manutenção",
    gordura_corporal := none }

/- The engine built from a zero-row table (all three source lists empty). -/
def engine_vazio : NutritionEngine := preparar_listas_alimentos []

/- Three catalog rows, one per dominant macro, and the engine whose
   source lists they populate (each row passes exactly its own list's
   membership predicate, so these are the prepared lists for that table). -/
def linha_frango : Row := ⟨"frango grelhado", 159, 31, 0, 4⟩

def linha_arroz : Row := ⟨"arroz cozido", 128, 3, 28, 1⟩

def linha_azeite : Row := ⟨"azeite de oliva", 884, 0, 0, 100⟩

def engine_exemplo : NutritionEngine :=
  ⟨[linha_frango], [linha_arroz], [linha_azeite]⟩

/- A daily-macro record used as concrete input to the meal distributor. -/
def macros_exemplo : Macros := ⟨1697, 127, 191, 47⟩

/- A catalog whose mappable columns carry no food-name keyword. -/
def catalogo_sem_nome : RawCatalog :=
  ⟨["col0", "kcal", "prot", "carb", "gord"], []⟩

/- A catalog with all required columns and zero rows. -/
def catalogo_vazio : RawCatalog :=
  ⟨["alimento", "kcal", "prot", "carb", "gord"], []⟩

/- A one-item catalog carrying no compatibility tag at all. -/
def alimento_sem_tags : AlimentoMarcado :=
  ⟨"ovo frito", ⟨false, false, false, false, false, false, false, false⟩⟩

def restricoes_nulas : RestricoesClinicas :=
  ⟨false, false, false, false, false, false⟩

/- ==================== Claims ==================== -/

/-- Claim C1: for every profile and catalog, if the intersection of all
active restriction filters (dietary pattern, clinical flags, allergy
exclusions) excludes every catalog row, the Restriction Filter stage
returns the original full, unfiltered catalog, never an empty result. -/
theorem filtro_restricoes_fallback (padrao : PadraoAlimentar) (rest : RestricoesClinicas)
    (catalogo : List AlimentoMarcado)
    (h : catalogo.filter (passa_restricoes padrao rest) = []) :
    filtro_restricoes padrao rest catalogo = catalogo := by
  simp [filtro_restricoes, h]

/-- Witness for C1: a vegan pattern against a catalog whose only item is
not vegan-safe filters down to nothing, and the stage hands back the
original catalog. -/
theorem filtro_restricoes_fallback_witness :
    List.filter (passa_restricoes PadraoAlimentar.vegano restricoes_nulas) [alimento_sem_tags] = []
    ∧ filtro_restricoes PadraoAlimentar.vegano restricoes_nulas [alimento_sem_tags] =
        [alimento_sem_tags] :=
  ⟨rfl, filtro_restricoes_fallback _ _ _ rfl⟩

/-- Claim C3: the Mifflin-St Jeor BMR is 10·weight + 6.25·height − 5·age
plus 5 for male sex and minus 161 otherwise; for a 30-year-old male of
80 kg and 178 cm it equals 1767.5 kcal. -/
theorem tmb_mifflin_formula (p : Informacoes_do_Paciente) :
    tmb_mifflin p =
      (if pyLower p.sexo = "masculino"
       then 10 * p.peso + 6.25 * p.altura - 5 * (p.idade : ℚ) + 5
       else 10 * p.peso + 6.25 * p.altura - 5 * (p.idade : ℚ) - 161)
    ∧ tmb_mifflin paciente_exemplo = 1767.5 := by
  refine ⟨rfl, ?_⟩
  have h : pyLower "masculino" = "masculino" := by decide
  simp [tmb_mifflin, paciente_exemplo, h]
  norm_num

/-- Claim C4: goal adjustment multiplies weight-loss goals by 0.8,
muscle-gain goals by 1.1 (inside the 1.1 - 1.15 range), and is the
identity otherwise; for the weight-loss goal label at tdee 2121.0 it
yields 1696.8 kcal. -/
theorem ajustar_por_objetivo_fatores (tdee : ℚ) (objetivo : String) :
    (eh_objetivo_emagrecimento objetivo = true →
        ajustar_por_objetivo tdee objetivo = tdee * 0.8)
    ∧ (eh_objetivo_emagrecimento objetivo = false → eh_objetivo_ganho objetivo = true →
        ajustar_por_objetivo tdee objetivo = tdee * 1.1)
    ∧ (eh_objetivo_emagrecimento objetivo = false → eh_objetivo_ganho objetivo = false →
        ajustar_por_objetivo tdee objetivo = tdee)
    ∧ ((1.1 : ℚ) ≤ 1.15 ∧ (0.8 : ℚ) < 1)
    ∧ ajustar_por_objetivo 2121 "Emagrecimento" = 1696.8 := by
  refine ⟨?_, ?_, ?_, by norm_num, ?_⟩
  · intro h1
    simp [ajustar_por_objetivo, h1]
  · intro h1 h2
    simp [ajustar_por_objetivo, h1, h2]
  · intro h1 h2
    simp [ajustar_por_objetivo, h1, h2]
  · have h1 : eh_objetivo_emagrecimento "Emagrecimento" = true := by decide
    simp [ajustar_por_objetivo, h1]
    norm_num

/-- Witness for C4: the three goal labels offered by the input form hit
the three branches: 2121·0.8 = 1696.8 for weight loss, 2000·1.1 = 2200
for mass gain, identity for maintenance. -/
theorem ajustar_por_objetivo_fatores_witness :
    ajustar_por_objetivo 2121 "Emagrecimento" = 1696.8
    ∧ ajustar_por_objetivo 2000 "Ganho de massa" = 2200
    ∧ ajustar_por_objetivo 2000 "Manutenção" = 2000 := by
  refine ⟨(ajustar_por_objetivo_fatores 2121 "Emagrecimento").2.2.2.2, ?_, ?_⟩
  · have h := (ajustar_por_objetivo_fatores 2000 "Ganho de massa").2.1 (by decide) (by decide)
    rw [h]; norm_num
  · exact (ajustar_por_objetivo_fatores 2000 "Manutenção").2.2.1 (by decide) (by decide)

/-- Claim C6: plan generation is deterministic — two calls with equal
engine state, equal profile and equal principal-equation choice give
equal plans (the source draws no randomness: items are taken from the
head of the deterministically prepared source lists). -/
theorem gerar_plano_determinista (e₁ e₂ : NutritionEngine)
    (p₁ p₂ : Informacoes_do_Paciente) (q₁ q₂ : String)
    (he : e₁ = e₂) (hp : p₁ = p₂) (hq : q₁ = q₂) :
    gerar_plano e₁ p₁ q₁ = gerar_plano e₂ p₂ q₂ := by
  rw [he, hp, hq]

/-- Witness for C6: two runs on the sample profile coincide. -/
theorem gerar_plano_determinista_witness :
    gerar_plano engine_vazio paciente_exemplo "mifflin" =
      gerar_plano engine_vazio paciente_exemplo "mifflin" :=
  gerar_plano_determinista engine_vazio engine_vazio paciente_exemplo paciente_exemplo
    "mifflin" "mifflin" rfl rfl rfl

/-- Claim C9: the three dominant-macro membership predicates are pairwise
disjoint — no catalog row satisfies more than one of them. -/
theorem fontes_listas_disjuntas (r : Row) :
    (if FonteProteina r then (1 : ℕ) else 0) + (if FonteCarbo r then 1 else 0) +
      (if FonteGordura r then 1 else 0) ≤ 1 := by
  by_cases h1 : FonteProteina r <;> by_cases h2 : FonteCarbo r <;> by_cases h3 : FonteGordura r
  · exact absurd h2.2.1 (not_lt.mpr (le_of_lt h1.2.1))
  · exact absurd h2.2.1 (not_lt.mpr (le_of_lt h1.2.1))
  · exact absurd h3.2.1 (not_lt.mpr h1.2.2)
  · simp [h1, h2, h3]
  · exact absurd h3.2.2 (not_lt.mpr h2.2.2)
  · simp [h1, h2, h3]
  · simp [h1, h2, h3]
  · simp [h1, h2, h3]

/-- Counterexample to C2: the meal distributor has no meals-per-day input
and always produces six slots with shares 20/10/30/10/20/10 percent; in
particular its output never matches the claimed reference table (the only
six-slot row of that table starts with an 18 percent breakfast, and a
three-meal request is claimed to give three slots, not six). -/
theorem distribuir_por_refeicao_refuta_tabela :
    ((distribuir_por_refeicao macros_exemplo).map Refeicao.fracao) =
      [0.20, 0.10, 0.30, 0.10, 0.20, 0.10]
    ∧ (distribuir_por_refeicao macros_exemplo).length = 6
    ∧ decide (([(0.20 : ℚ), 0.10, 0.30, 0.10, 0.20, 0.10] : List ℚ) =
        [0.18, 0.10, 0.32, 0.12, 0.18, 0.10]) = false
    ∧ decide ((6 : ℕ) = 3) = false := by
  refine ⟨rfl, rfl, ?_, by decide⟩
  simp only [decide_eq_false_iff_not]
  norm_num [List.cons.injEq]

/-- Claim C2 as amended: distribuir_por_refeicao ignores any meals-per-day
setting; for every daily-macro record it returns the fixed ordered
six-slot list — breakfast 20, morning snack 10, lunch 30, afternoon
snack 10, dinner 20, evening snack 10 percent — whose shares sum to 1,
each slot's kcal being the rounded product of the daily kcal and the
slot share. -/
theorem distribuir_por_refeicao_esquema_fixo (m : Macros) :
    ((distribuir_por_refeicao m).map fun r => (r.refeicao, r.fracao)) =
      [("Café da manhã", 0.20), ("Lanche da manhã", 0.10), ("Almoço", 0.30),
       ("Lanche da tarde", 0.10), ("Jantar", 0.20), ("Ceia", 0.10)]
    ∧ ((distribuir_por_refeicao m).map Refeicao.fracao).sum = 1
    ∧ ((distribuir_por_refeicao m).map Refeicao.kcal) =
        [pyRound ((m.kcal : ℚ) * 0.20), pyRound ((m.kcal : ℚ) * 0.10),
         pyRound ((m.kcal : ℚ) * 0.30), pyRound ((m.kcal : ℚ) * 0.10),
         pyRound ((m.kcal : ℚ) * 0.20), pyRound ((m.kcal : ℚ) * 0.10)]
    ∧ ((distribuir_por_refeicao m).map Refeicao.proteina_g) =
        [pyRound ((m.proteina_g : ℚ) * 0.20), pyRound ((m.proteina_g : ℚ) * 0.10),
         pyRound ((m.proteina_g : ℚ) * 0.30), pyRound ((m.proteina_g : ℚ) * 0.10),
         pyRound ((m.proteina_g : ℚ) * 0.20), pyRound ((m.proteina_g : ℚ) * 0.10)]
    ∧ ((distribuir_por_refeicao m).map Refeicao.carbo_g) =
        [pyRound ((m.carbo_g : ℚ) * 0.20), pyRound ((m.carbo_g : ℚ) * 0.10),
         pyRound ((m.carbo_g : ℚ) * 0.30), pyRound ((m.carbo_g : ℚ) * 0.10),
         pyRound ((m.carbo_g : ℚ) * 0.20), pyRound ((m.carbo_g : ℚ) * 0.10)]
    ∧ ((distribuir_por_refeicao m).map Refeicao.gordura_g) =
        [pyRound ((m.gordura_g : ℚ) * 0.20), pyRound ((m.gordura_g : ℚ) * 0.10),
         pyRound ((m.gordura_g : ℚ) * 0.30), pyRound ((m.gordura_g : ℚ) * 0.10),
         pyRound ((m.gordura_g : ℚ) * 0.20), pyRound ((m.gordura_g : ℚ) * 0.10)] := by
  refine ⟨rfl, ?_, rfl, rfl, rfl, rfl⟩
  norm_num [distribuir_por_refeicao, esquema, List.sum_cons, List.sum_nil]

/-- Counterexample to C7: a catalog with all required columns but zero
rows does not raise — engine construction succeeds and plan generation
proceeds on the resulting empty source lists. -/
theorem engine_init_aceita_catalogo_vazio :
    inicializa_sem_erro catalogo_vazio = true
    ∧ catalogo_vazio.data.length = 0
    ∧ (gerar_plano (preparar_listas_alimentos catalogo_vazio.data) paciente_exemplo
        "mifflin").refeicoes.length = 6 := by
  refine ⟨by decide, rfl, rfl⟩

/-- Claim C7 as amended: engine construction fails exactly when one of
the kcal / protein / carbohydrate / fat columns cannot be mapped from
the normalized column names; it never checks for emptiness of the rows
(an empty-column catalog also fails, all four lookups finding nothing). -/
theorem engine_init_erro_sse_colunas (cat : RawCatalog) :
    inicializa_sem_erro cat =
      ((acha_kcal (colunas_normalizadas cat)).isSome &&
       (acha_prot (colunas_normalizadas cat)).isSome &&
       (acha_carb (colunas_normalizadas cat)).isSome &&
       (acha_gord (colunas_normalizadas cat)).isSome) := by
  unfold inicializa_sem_erro nutrition_engine_init mapear_colunas
  cases hc : colunas_normalizadas cat with
  | nil => simp [acha_kcal, acha_prot, acha_carb, acha_gord]
  | cons c0 rest =>
    rcases hk : acha_kcal (c0 :: rest) with _ | k <;>
    rcases hp : acha_prot (c0 :: rest) with _ | p <;>
    rcases hcb : acha_carb (c0 :: rest) with _ | cb <;>
    rcases hg : acha_gord (c0 :: rest) with _ | g <;>
      simp [hk, hp, hcb, hg]

/-- Counterexample to C8: a profile with negative weight and height and
absurd age is not rejected — gerar_plano computes a complete plan whose
principal BMR is the nonsensical value −3058 kcal. -/
theorem gerar_plano_aceita_perfil_invalido :
    paciente_invalido.peso = -50
    ∧ (gerar_plano engine_vazio paciente_invalido "mifflin").tmb_principal = -3058
    ∧ decide ((-3058 : ℤ) < 0) = true
    ∧ (gerar_plano engine_vazio paciente_invalido "mifflin").refeicoes.length = 6 := by
  refine ⟨rfl, ?_, by decide, rfl⟩
  have h1 : pyLower "mifflin" = "mifflin" := by decide
  have h2 : pyLower "masculino" = "masculino" := by decide
  have h3 : calcular_tmb_equacao paciente_invalido "mifflin" = -3057.5 := by
    norm_num [calcular_tmb_equacao, h1, tmb_mifflin, paciente_invalido, h2]
  have h4 : (gerar_plano engine_vazio paciente_invalido "mifflin").tmb_principal =
      pyRound (calcular_tmb_equacao paciente_invalido "mifflin") := rfl
  rw [h4, h3]
  norm_num [pyRound]

/-- Claim C8 as amended: gerar_plano performs no profile validation —
even for a profile with non-positive weight or height or an out-of-range
age it raises nothing and returns a complete six-meal plan whose
principal BMR is the raw formula value (range checks live only in the
input-form widgets of app.py). -/
theorem gerar_plano_total_sem_validacao (e : NutritionEngine)
    (p : Informacoes_do_Paciente) (eq : String)
    (h : p.peso ≤ 0 ∨ p.altura ≤ 0 ∨ p.idade ≤ 0 ∨ 130 ≤ p.idade) :
    (gerar_plano e p eq).tmb_principal = pyRound (calcular_tmb_equacao p eq)
    ∧ (gerar_plano e p eq).refeicoes.length = 6 :=
  ⟨rfl, rfl⟩

/-- Witness for C8 as amended: the invalid sample profile has
non-positive weight and still gets a full plan. -/
theorem gerar_plano_total_sem_validacao_witness :
    paciente_invalido.peso ≤ 0
    ∧ ((gerar_plano engine_vazio paciente_invalido "mifflin").tmb_principal =
        pyRound (calcular_tmb_equacao paciente_invalido "mifflin")
      ∧ (gerar_plano engine_vazio paciente_invalido "mifflin").refeicoes.length = 6) :=
  ⟨by norm_num [paciente_invalido],
   gerar_plano_total_sem_validacao engine_vazio paciente_invalido "mifflin"
     (Or.inl (by norm_num [paciente_invalido]))⟩

/-- Claim C10: when the four macro columns are mappable, construction
succeeds whatever the rows are, and if no column name carries a food-name
keyword the first column silently becomes the name column. -/
theorem mapear_colunas_nome_fallback (cat : RawCatalog) (k p cb g : String)
    (hk : acha_kcal (colunas_normalizadas cat) = some k)
    (hp : acha_prot (colunas_normalizadas cat) = some p)
    (hc : acha_carb (colunas_normalizadas cat) = some cb)
    (hg : acha_gord (colunas_normalizadas cat) = some g)
    (hn : acha_nome (colunas_normalizadas cat) = none) :
    nutrition_engine_init cat = Except.ok (preparar_listas_alimentos cat.data)
    ∧ mapear_colunas (colunas_normalizadas cat) =
        Except.ok ⟨(colunas_normalizadas cat).headI, k, p, cb, g⟩ := by
  have hmap : mapear_colunas (colunas_normalizadas cat) =
      Except.ok ⟨(colunas_normalizadas cat).headI, k, p, cb, g⟩ := by
    cases hcols : colunas_normalizadas cat with
    | nil => rw [hcols] at hk; simp [acha_kcal] at hk
    | cons c0 rest =>
      rw [hcols] at hk hp hc hg hn
      simp [mapear_colunas, hk, hp, hc, hg, hn]
  have hinit : nutrition_engine_init cat = Except.ok (preparar_listas_alimentos cat.data) := by
    unfold nutrition_engine_init
    rw [hmap]
  exact ⟨hinit, hmap⟩

/-- Witness for C10: a table whose columns are col0/kcal/prot/carb/gord
maps successfully with col0 as the name column. -/
theorem mapear_colunas_nome_fallback_witness :
    nutrition_engine_init catalogo_sem_nome = Except.ok (preparar_listas_alimentos [])
    ∧ mapear_colunas (colunas_normalizadas catalogo_sem_nome) =
        Except.ok ⟨"col0", "kcal", "prot", "carb", "gord"⟩ := by
  have h := mapear_colunas_nome_fallback catalogo_sem_nome "kcal" "prot" "carb" "gord"
    (by decide) (by decide) (by decide) (by decide) (by decide)
  refine ⟨h.1, ?_⟩
  have h2 := h.2
  rw [(by decide : (colunas_normalizadas catalogo_sem_nome).headI = "col0")] at h2
  exact h2

/- Bounds helper: a positive output of limitar_gramas lies in 20..200. -/
theorem limitar_gramas_limites (g : ℤ) (h : 0 < limitar_gramas g) :
    20 ≤ limitar_gramas g ∧ limitar_gramas g ≤ 200 := by
  unfold limitar_gramas at h ⊢
  split_ifs at h ⊢ with hg
  · omega
  · exact ⟨le_max_left _ _, max_le (by norm_num) (min_le_right g 200)⟩

/- Bounds helper: any line actually emitted carries grams in 20..200. -/
theorem linha_se_positiva_limites (x : ℤ) (nome : String) (g : ℤ) (n : String)
    (h : (g, n) ∈ linha_se_positiva (limitar_gramas x) nome) :
    0 < g ∧ 20 ≤ g ∧ g ≤ 200 := by
  unfold linha_se_positiva at h
  split_ifs at h with hpos
  · simp only [List.mem_singleton, Prod.mk.injEq] at h
    obtain ⟨hg, hn⟩ := h
    subst hg
    exact ⟨hpos, limitar_gramas_limites x hpos⟩
  · simp at h

/- Membership helper: a line of the final ComboResult always comes from
the assembled list of lines. -/
theorem mem_combo_linhas_ite (L : List (ℤ × String)) (x : ℤ × String)
    (h : x ∈ combo_linhas (if L.isEmpty then ComboResult.manual else ComboResult.combo L)) :
    x ∈ L := by
  split at h
  · simp [combo_linhas] at h
  · simpa [combo_linhas] using h

/-- Claim C5: every gram quantity the meal-combination step emits is
positive, an integer number of grams (the rounding granularity of the
source is 1 g via round()), at least the configured minimum of 20 g, and
at most the 200 g cap. -/
theorem combo_para_refeicao_gramas (e : NutritionEngine) (ap ac ag : ℚ)
    (g : ℤ) (n : String)
    (h : (g, n) ∈ combo_linhas (combo_para_refeicao e ap ac ag)) :
    0 < g ∧ 20 ≤ g ∧ g ≤ 200 := by
  obtain ⟨fp, fc, fg⟩ := e
  cases fp with
  | nil => simp [combo_para_refeicao, combo_linhas] at h
  | cons pr fpt =>
    cases fc with
    | nil => simp [combo_para_refeicao, combo_linhas] at h
    | cons cr fct =>
      simp only [combo_para_refeicao] at h
      have h2 := mem_combo_linhas_ite _ _ h
      rcases List.mem_append.mp h2 with h' | h'
      · rcases List.mem_append.mp h' with h'' | h''
        · exact linha_se_positiva_limites _ _ _ _ h''
        · exact linha_se_positiva_limites _ _ _ _ h''
      · cases fg with
        | nil => simp at h'
        | cons g0 fgt =>
          simp only [List.head?] at h'
          exact linha_se_positiva_limites _ _ _ _ h'

/-- Witness for C5: against the three-row sample engine, targets of
31 g protein, 28 g carbs and 10 g fat produce the lines 70 g chicken,
70 g rice and 20 g olive oil (the last clamped up to the 20 g minimum);
the first one is in bounds. -/
theorem combo_para_refeicao_gramas_witness :
    ((70 : ℤ), "frango grelhado") ∈
      combo_linhas (combo_para_refeicao engine_exemplo 31 28 10)
    ∧ (0 < (70 : ℤ) ∧ 20 ≤ (70 : ℤ) ∧ (70 : ℤ) ≤ 200) := by
  have e1 : pyRound (70 : ℚ) = 70 := by norm_num [pyRound]
  have e3 : pyRound (7 : ℚ) = 7 := by norm_num [pyRound]
  have hmem : combo_linhas (combo_para_refeicao engine_exemplo 31 28 10) =
      [(70, "frango grelhado"), (70, "arroz cozido"), (20, "azeite de oliva")] := by
    norm_num [combo_para_refeicao, combo_linhas, engine_exemplo, linha_frango, linha_arroz,
      linha_azeite, e1, e3, limitar_gramas, linha_se_positiva, max_def, min_def]
  refine ⟨by rw [hmem]; simp, ?_⟩
  exact combo_para_refeicao_gramas engine_exemplo 31 28 10 70 "frango grelhado"
    (by rw [hmem]; simp)
